import Mathlib

/-!
Verification of the test-result recorder and report builder of the Slashy
shortcut test suite (src/slashy_test.py and src/slashy_shortcut_tests.py).

The Python code is shallowly embedded: the recorder object is a structure,
each mutating method becomes a function from the structure to the structure,
and `datetime.now()` is modelled by an explicit abstract timestamp argument
(a natural number) supplied at each call. Python's IEEE floats are modelled
by exact rationals: every quantity involved here (`passed / total * 100` and
its rounding to two decimal places) is an exact small rational, and the
claims under study depend only on comparisons and roundings that floats of
these magnitudes compute exactly the same way.

For the one claim about aliasing (whether `save_json_report` copies the
result list or stores a reference into the report dictionary) a second
embedding with an explicit heap of list objects is given further below, since
value semantics cannot distinguish a copy from a reference.
-/

/-- One recorded test result: the dictionary built in
`SlashyShortcutTester.record_test` (src/slashy_test.py lines 28-34), with
the five keys shortcut, description, status, timestamp, notes. -/
structure TestOutcome where
  shortcut : String
  description : String
  status : String
  timestamp : Nat
  notes : String
deriving DecidableEq

/-- Recorder state of `SlashyShortcutTester.__init__` (src/slashy_test.py
lines 16-23): ordered result list, five counters, and the start time. -/
structure SlashyShortcutTester where
  test_results : List TestOutcome
  total_tests : Nat
  passed_tests : Nat
  failed_tests : Nat
  partial_tests : Nat
  error_tests : Nat
  start_time : Nat
deriving DecidableEq

/-- Fresh recorder, as `__init__` builds it at a given start time: empty
result list and all counters zero. -/
def SlashyShortcutTester.init (start : Nat) : SlashyShortcutTester :=
  { test_results := []
    total_tests := 0
    passed_tests := 0
    failed_tests := 0
    partial_tests := 0
    error_tests := 0
    start_time := start }

/-- `SlashyShortcutTester.record_test` (src/slashy_test.py lines 25-50),
with `now` standing for `datetime.now().isoformat()`: append the new outcome,
run the `if/elif` chain over the status incrementing at most one bucket, then
increment the total. The trailing `print` has no effect on the state. -/
def record_test (s : SlashyShortcutTester)
    (shortcut description status notes : String) (now : Nat) :
    SlashyShortcutTester :=
  let s1 := { s with
    test_results := s.test_results ++
      [({ shortcut := shortcut, description := description, status := status,
          timestamp := now, notes := notes } : TestOutcome)] }
  let s2 :=
    if status = "PASS" then { s1 with passed_tests := s1.passed_tests + 1 }
    else if status = "FAIL" then { s1 with failed_tests := s1.failed_tests + 1 }
    else if status = "PARTIAL" then { s1 with partial_tests := s1.partial_tests + 1 }
    else if status = "ERROR" then { s1 with error_tests := s1.error_tests + 1 }
    else s1
  { s2 with total_tests := s2.total_tests + 1 }

/-- `SlashyShortcutTester.get_pass_rate` (src/slashy_test.py lines 202-206):
`0.0` when no test was recorded, else `passed / total * 100`. -/
def get_pass_rate (s : SlashyShortcutTester) : ℚ :=
  if s.total_tests = 0 then 0
  else ((s.passed_tests : ℚ) / (s.total_tests : ℚ)) * 100

/-- The qualitative overall status computed in
`SlashyShortcutTester.print_summary` (src/slashy_test.py lines 153-158) by
thresholding the pass rate. -/
def overall_status (pass_rate : ℚ) : String :=
  if pass_rate ≥ 80 then "✓ PRODUCTION READY"
  else if pass_rate ≥ 60 then "⚠ MOSTLY FUNCTIONAL"
  else "✗ NEEDS IMPROVEMENT"

/-- Rounding to two decimal places, as `round(self.get_pass_rate(), 2)` in
`save_json_report` (src/slashy_test.py line 190). Python rounds the float
half-to-even; on the exact rationals reached in the claims the two rules
agree, and `round` here is Mathlib's round on ℚ. -/
def round2 (q : ℚ) : ℚ :=
  ((round (q * 100) : ℤ) : ℚ) / 100

/-- Arguments of one `record_test` call: the four strings of the Python
signature plus the abstract timestamp the call observes. -/
structure RecordCall where
  shortcut : String
  description : String
  status : String
  notes : String
  now : Nat
deriving DecidableEq

/-- The outcome `record_test` appends for a given call. -/
def RecordCall.outcome (c : RecordCall) : TestOutcome :=
  { shortcut := c.shortcut, description := c.description, status := c.status,
    timestamp := c.now, notes := c.notes }

/-- Run a sequence of `record_test` calls left to right, as the driver
`run_all_tests` does. -/
def runRecords (s : SlashyShortcutTester) : List RecordCall → SlashyShortcutTester
  | [] => s
  | c :: cs => runRecords (record_test s c.shortcut c.description c.status c.notes c.now) cs

/-- The four recognized statuses that own a counter bucket. -/
def recognizedStatuses : List String := ["PASS", "FAIL", "PARTIAL", "ERROR"]

section RecordLemmas

variable (s : SlashyShortcutTester) (a b st n : String) (t : Nat)

lemma record_test_results :
    (record_test s a b st n t).test_results
      = s.test_results ++ [{ shortcut := a, description := b, status := st,
                             timestamp := t, notes := n }] := by
  simp only [record_test]
  split_ifs <;> rfl

lemma record_test_total :
    (record_test s a b st n t).total_tests = s.total_tests + 1 := by
  simp only [record_test]
  split_ifs <;> rfl

lemma record_test_passed :
    (record_test s a b st n t).passed_tests
      = s.passed_tests + (if st = "PASS" then 1 else 0) := by
  simp only [record_test]
  split_ifs <;> rfl

lemma record_test_failed :
    (record_test s a b st n t).failed_tests
      = s.failed_tests + (if st = "FAIL" then 1 else 0) := by
  simp only [record_test]
  split_ifs <;> simp_all

lemma record_test_partial_bucket :
    (record_test s a b st n t).partial_tests
      = s.partial_tests + (if st = "PARTIAL" then 1 else 0) := by
  simp only [record_test]
  split_ifs <;> simp_all

lemma record_test_error :
    (record_test s a b st n t).error_tests
      = s.error_tests + (if st = "ERROR" then 1 else 0) := by
  simp only [record_test]
  split_ifs <;> simp_all

lemma record_test_start :
    (record_test s a b st n t).start_time = s.start_time := by
  simp only [record_test]
  split_ifs <;> rfl

end RecordLemmas

section RunLemmas

lemma runRecords_nil (s : SlashyShortcutTester) : runRecords s [] = s := rfl

lemma runRecords_cons (s : SlashyShortcutTester) (c : RecordCall) (cs : List RecordCall) :
    runRecords s (c :: cs)
      = runRecords (record_test s c.shortcut c.description c.status c.notes c.now) cs := rfl

lemma runRecords_append (s : SlashyShortcutTester) (cs cs' : List RecordCall) :
    runRecords s (cs ++ cs') = runRecords (runRecords s cs) cs' := by
  induction cs generalizing s with
  | nil => rfl
  | cons c cs ih => simp [runRecords_cons, ih]

lemma runRecords_total (s : SlashyShortcutTester) (cs : List RecordCall) :
    (runRecords s cs).total_tests = s.total_tests + cs.length := by
  induction cs generalizing s with
  | nil => rfl
  | cons c cs ih => simp [runRecords_cons, ih, record_test_total]; omega

lemma runRecords_results (s : SlashyShortcutTester) (cs : List RecordCall) :
    (runRecords s cs).test_results = s.test_results ++ cs.map RecordCall.outcome := by
  induction cs generalizing s with
  | nil => simp [runRecords_nil]
  | cons c cs ih =>
      simp [runRecords_cons, ih, record_test_results, RecordCall.outcome]

lemma runRecords_passed (s : SlashyShortcutTester) (cs : List RecordCall) :
    (runRecords s cs).passed_tests
      = s.passed_tests + (cs.map RecordCall.status).count "PASS" := by
  induction cs generalizing s with
  | nil => rfl
  | cons c cs ih =>
      simp [runRecords_cons, ih, record_test_passed, List.count_cons]
      rcases eq_or_ne c.status "PASS" with h | h <;> simp [h] <;> omega

lemma runRecords_failed (s : SlashyShortcutTester) (cs : List RecordCall) :
    (runRecords s cs).failed_tests
      = s.failed_tests + (cs.map RecordCall.status).count "FAIL" := by
  induction cs generalizing s with
  | nil => rfl
  | cons c cs ih =>
      simp [runRecords_cons, ih, record_test_failed, List.count_cons]
      rcases eq_or_ne c.status "FAIL" with h | h <;> simp [h] <;> omega

lemma runRecords_partial_bucket (s : SlashyShortcutTester) (cs : List RecordCall) :
    (runRecords s cs).partial_tests
      = s.partial_tests + (cs.map RecordCall.status).count "PARTIAL" := by
  induction cs generalizing s with
  | nil => rfl
  | cons c cs ih =>
      simp [runRecords_cons, ih, record_test_partial_bucket, List.count_cons]
      rcases eq_or_ne c.status "PARTIAL" with h | h <;> simp [h] <;> omega

lemma runRecords_error (s : SlashyShortcutTester) (cs : List RecordCall) :
    (runRecords s cs).error_tests
      = s.error_tests + (cs.map RecordCall.status).count "ERROR" := by
  induction cs generalizing s with
  | nil => rfl
  | cons c cs ih =>
      simp [runRecords_cons, ih, record_test_error, List.count_cons]
      rcases eq_or_ne c.status "ERROR" with h | h <;> simp [h] <;> omega

end RunLemmas

/-- Sum of the occurrences of the four recognized statuses in a status list:
what the four bucket counters add up to after running the calls. -/
def recognizedCount (l : List String) : Nat :=
  l.count "PASS" + l.count "FAIL" + l.count "PARTIAL" + l.count "ERROR"

lemma recognizedCount_nil : recognizedCount [] = 0 := rfl

lemma recognizedCount_cons (x : String) (l : List String) :
    recognizedCount (x :: l)
      = recognizedCount l + (if x ∈ recognizedStatuses then 1 else 0) := by
  simp only [recognizedCount, List.count_cons, recognizedStatuses, List.mem_cons,
    List.not_mem_nil, or_false]
  rcases eq_or_ne x "PASS" with h | h <;>
    rcases eq_or_ne x "FAIL" with h2 | h2 <;>
      rcases eq_or_ne x "PARTIAL" with h3 | h3 <;>
        rcases eq_or_ne x "ERROR" with h4 | h4 <;>
          simp_all <;> omega

lemma recognizedCount_le (l : List String) : recognizedCount l ≤ l.length := by
  induction l with
  | nil => simp [recognizedCount_nil]
  | cons x l ih =>
      rw [recognizedCount_cons]
      simp only [List.length_cons]
      split_ifs <;> omega

lemma recognizedCount_eq_length_iff (l : List String) :
    recognizedCount l = l.length ↔ ∀ x ∈ l, x ∈ recognizedStatuses := by
  induction l with
  | nil => simp [recognizedCount_nil]
  | cons x l ih =>
      rw [recognizedCount_cons]
      simp only [List.length_cons, List.mem_cons, forall_eq_or_imp]
      have hle := recognizedCount_le l
      constructor
      · intro h
        split_ifs at h with hx
        · exact ⟨hx, ih.mp (by omega)⟩
        · omega
      · rintro ⟨hx, hall⟩
        rw [ih.mpr hall]
        simp [hx]

lemma runRecords_bucket_sum (s : SlashyShortcutTester) (cs : List RecordCall) :
    (runRecords s cs).passed_tests + (runRecords s cs).failed_tests
      + (runRecords s cs).partial_tests + (runRecords s cs).error_tests
    = s.passed_tests + s.failed_tests + s.partial_tests + s.error_tests
      + recognizedCount (cs.map RecordCall.status) := by
  rw [runRecords_passed, runRecords_failed, runRecords_partial_bucket, runRecords_error]
  simp [recognizedCount]
  omega

/-- C1: for every recorder state, `get_pass_rate` returns
`passed / total * 100` when `total > 0` and exactly `0` when `total == 0`;
it is a pure function reading only the `passed_tests` and `total_tests`
counters, so any two states agreeing on those two counts get the same rate,
and (being a plain function of the state in this embedding) it has no side
effects. -/
theorem pass_rate_of_counts (s t : SlashyShortcutTester)
    (hp : s.passed_tests = t.passed_tests)
    (htot : s.total_tests = t.total_tests) :
    get_pass_rate s = get_pass_rate t ∧
    (s.total_tests = 0 → get_pass_rate s = 0) ∧
    (0 < s.total_tests →
      get_pass_rate s = (s.passed_tests : ℚ) / (s.total_tests : ℚ) * 100) := by
  refine ⟨by simp [get_pass_rate, hp, htot], ?_, ?_⟩
  · intro h
    simp [get_pass_rate, h]
  · intro h
    simp [get_pass_rate, Nat.pos_iff_ne_zero.mp h]

/-- Witness for C1: two concrete states agreeing on passed and total counts,
one reached by an actual `record_test` call. -/
theorem pass_rate_of_counts_witness :
    get_pass_rate (record_test (SlashyShortcutTester.init 0) "c" "Compose mail" "PASS"
        "Opens full compose window with all fields" 1)
      = get_pass_rate (SlashyShortcutTester.mk [] 1 1 0 0 0 7) ∧
    ((record_test (SlashyShortcutTester.init 0) "c" "Compose mail" "PASS"
        "Opens full compose window with all fields" 1).total_tests = 0 →
      get_pass_rate (record_test (SlashyShortcutTester.init 0) "c" "Compose mail" "PASS"
        "Opens full compose window with all fields" 1) = 0) ∧
    (0 < (record_test (SlashyShortcutTester.init 0) "c" "Compose mail" "PASS"
        "Opens full compose window with all fields" 1).total_tests →
      get_pass_rate (record_test (SlashyShortcutTester.init 0) "c" "Compose mail" "PASS"
        "Opens full compose window with all fields" 1)
        = ((record_test (SlashyShortcutTester.init 0) "c" "Compose mail" "PASS"
            "Opens full compose window with all fields" 1).passed_tests : ℚ)
          / ((record_test (SlashyShortcutTester.init 0) "c" "Compose mail" "PASS"
            "Opens full compose window with all fields" 1).total_tests : ℚ) * 100) :=
  pass_rate_of_counts _ _ (by decide) (by decide)

/-- C2: starting from a fresh recorder, after any sequence of `record_test`
calls the total counter equals the length of the recorded result list, and
running further calls only appends their outcomes to the list, so no
recorded outcome is ever mutated or removed. -/
theorem total_eq_length_append_only (start : Nat) (cs cs' : List RecordCall) :
    (runRecords (SlashyShortcutTester.init start) cs).total_tests
      = (runRecords (SlashyShortcutTester.init start) cs).test_results.length ∧
    (runRecords (SlashyShortcutTester.init start) (cs ++ cs')).test_results
      = (runRecords (SlashyShortcutTester.init start) cs).test_results
        ++ cs'.map RecordCall.outcome := by
  constructor
  · rw [runRecords_total, runRecords_results]
    simp [SlashyShortcutTester.init]
  · rw [runRecords_append, runRecords_results]

/-- C3: every `record_test` call appends exactly one new outcome carrying the
given shortcut, description, status, notes and the current timestamp, and
increments the total; for a status among PASS, FAIL, PARTIAL and ERROR
exactly the matching bucket is incremented and the other three are
unchanged, and for any other status all four buckets are unchanged. Being a
total function of the state in this embedding, the call raises no error for
any status string. -/
theorem record_test_effect (s : SlashyShortcutTester)
    (shortcut description status notes : String) (now : Nat) :
    (record_test s shortcut description status notes now).test_results
      = s.test_results ++ [{ shortcut := shortcut, description := description,
                             status := status, timestamp := now, notes := notes }] ∧
    (record_test s shortcut description status notes now).total_tests
      = s.total_tests + 1 ∧
    (status = "PASS" →
      (record_test s shortcut description status notes now).passed_tests
          = s.passed_tests + 1 ∧
      (record_test s shortcut description status notes now).failed_tests
          = s.failed_tests ∧
      (record_test s shortcut description status notes now).partial_tests
          = s.partial_tests ∧
      (record_test s shortcut description status notes now).error_tests
          = s.error_tests) ∧
    (status = "FAIL" →
      (record_test s shortcut description status notes now).failed_tests
          = s.failed_tests + 1 ∧
      (record_test s shortcut description status notes now).passed_tests
          = s.passed_tests ∧
      (record_test s shortcut description status notes now).partial_tests
          = s.partial_tests ∧
      (record_test s shortcut description status notes now).error_tests
          = s.error_tests) ∧
    (status = "PARTIAL" →
      (record_test s shortcut description status notes now).partial_tests
          = s.partial_tests + 1 ∧
      (record_test s shortcut description status notes now).passed_tests
          = s.passed_tests ∧
      (record_test s shortcut description status notes now).failed_tests
          = s.failed_tests ∧
      (record_test s shortcut description status notes now).error_tests
          = s.error_tests) ∧
    (status = "ERROR" →
      (record_test s shortcut description status notes now).error_tests
          = s.error_tests + 1 ∧
      (record_test s shortcut description status notes now).passed_tests
          = s.passed_tests ∧
      (record_test s shortcut description status notes now).failed_tests
          = s.failed_tests ∧
      (record_test s shortcut description status notes now).partial_tests
          = s.partial_tests) ∧
    (status ∉ recognizedStatuses →
      (record_test s shortcut description status notes now).passed_tests
          = s.passed_tests ∧
      (record_test s shortcut description status notes now).failed_tests
          = s.failed_tests ∧
      (record_test s shortcut description status notes now).partial_tests
          = s.partial_tests ∧
      (record_test s shortcut description status notes now).error_tests
          = s.error_tests) := by
  refine ⟨record_test_results .., record_test_total .., ?_, ?_, ?_, ?_, ?_⟩
  · intro h
    subst h
    simp [record_test_passed, record_test_failed, record_test_partial_bucket,
      record_test_error]
  · intro h
    subst h
    simp [record_test_passed, record_test_failed, record_test_partial_bucket,
      record_test_error]
  · intro h
    subst h
    simp [record_test_passed, record_test_failed, record_test_partial_bucket,
      record_test_error]
  · intro h
    subst h
    simp [record_test_passed, record_test_failed, record_test_partial_bucket,
      record_test_error]
  · intro h
    simp only [recognizedStatuses, List.mem_cons, List.not_mem_nil, or_false,
      not_or] at h
    obtain ⟨h1, h2, h3, h4⟩ := h
    simp [record_test_passed, record_test_failed, record_test_partial_bucket,
      record_test_error, h1, h2, h3, h4]

/-- C4: after any sequence of `record_test` calls on a fresh recorder, the
four bucket counters sum to at most the total, with equality exactly when
every recorded status was one of PASS, FAIL, PARTIAL, ERROR. -/
theorem bucket_sum_le_total (start : Nat) (cs : List RecordCall) :
    (runRecords (SlashyShortcutTester.init start) cs).passed_tests
        + (runRecords (SlashyShortcutTester.init start) cs).failed_tests
        + (runRecords (SlashyShortcutTester.init start) cs).partial_tests
        + (runRecords (SlashyShortcutTester.init start) cs).error_tests
      ≤ (runRecords (SlashyShortcutTester.init start) cs).total_tests ∧
    ((runRecords (SlashyShortcutTester.init start) cs).passed_tests
        + (runRecords (SlashyShortcutTester.init start) cs).failed_tests
        + (runRecords (SlashyShortcutTester.init start) cs).partial_tests
        + (runRecords (SlashyShortcutTester.init start) cs).error_tests
      = (runRecords (SlashyShortcutTester.init start) cs).total_tests
        ↔ ∀ c ∈ cs, c.status ∈ recognizedStatuses) := by
  have hsum := runRecords_bucket_sum (SlashyShortcutTester.init start) cs
  have htot := runRecords_total (SlashyShortcutTester.init start) cs
  have hle := recognizedCount_le (cs.map RecordCall.status)
  have hiff := recognizedCount_eq_length_iff (cs.map RecordCall.status)
  rw [List.length_map] at hle hiff
  rw [hsum, htot]
  simp only [SlashyShortcutTester.init, Nat.zero_add]
  constructor
  · exact hle
  · rw [hiff]
    simp

/-- C6: the rendered summary's overall qualitative status is a pure
threshold of the pass rate: at least 80 gives PRODUCTION READY, at least 60
but below 80 gives MOSTLY FUNCTIONAL, below 60 gives NEEDS IMPROVEMENT (the
code prefixes each label with its check-mark glyph); and a report built from
zero recorded outcomes has pass rate 0 and status NEEDS IMPROVEMENT. -/
theorem overall_status_thresholds (r : ℚ) (start : Nat) :
    (80 ≤ r → overall_status r = "✓ PRODUCTION READY") ∧
    (60 ≤ r → r < 80 → overall_status r = "⚠ MOSTLY FUNCTIONAL") ∧
    (r < 60 → overall_status r = "✗ NEEDS IMPROVEMENT") ∧
    get_pass_rate (runRecords (SlashyShortcutTester.init start) []) = 0 ∧
    overall_status (get_pass_rate (runRecords (SlashyShortcutTester.init start) []))
      = "✗ NEEDS IMPROVEMENT" := by
  have hempty : get_pass_rate (runRecords (SlashyShortcutTester.init start) []) = 0 := by
    simp [runRecords_nil, get_pass_rate, SlashyShortcutTester.init]
  refine ⟨?_, ?_, ?_, hempty, ?_⟩
  · intro h
    simp [overall_status, h]
  · intro h1 h2
    have hn : ¬ (r ≥ 80) := by linarith
    simp [overall_status, hn, h1]
  · intro h
    have hn1 : ¬ (r ≥ 80) := by linarith
    have hn2 : ¬ (r ≥ 60) := by linarith
    simp [overall_status, hn1, hn2]
  · rw [hempty]
    norm_num [overall_status]

/-- C7: the pass rate after a sequence of record calls depends only on the
multiset of recorded statuses: two sequences whose status lists are
permutations of one another (regardless of start times, shortcuts,
descriptions, notes or timestamps) yield the same pass rate. -/
theorem pass_rate_perm_invariant (start1 start2 : Nat) (cs1 cs2 : List RecordCall)
    (h : (cs1.map RecordCall.status).Perm (cs2.map RecordCall.status)) :
    get_pass_rate (runRecords (SlashyShortcutTester.init start1) cs1)
      = get_pass_rate (runRecords (SlashyShortcutTester.init start2) cs2) := by
  have hlen : cs1.length = cs2.length := by simpa using h.length_eq
  have hcount := h.count_eq "PASS"
  simp only [get_pass_rate, runRecords_total, runRecords_passed,
    SlashyShortcutTester.init, Nat.zero_add, hlen, hcount]

/-- Witness for C7: the same two statuses recorded in the two orders give
the same pass rate. -/
theorem pass_rate_perm_invariant_witness :
    get_pass_rate (runRecords (SlashyShortcutTester.init 0)
        [{ shortcut := "c", description := "Compose mail", status := "PASS",
           notes := "", now := 1 },
         { shortcut := "/", description := "Search", status := "FAIL",
           notes := "", now := 2 }])
      = get_pass_rate (runRecords (SlashyShortcutTester.init 9)
        [{ shortcut := "/", description := "Search", status := "FAIL",
           notes := "", now := 5 },
         { shortcut := "c", description := "Compose mail", status := "PASS",
           notes := "", now := 6 }]) :=
  pass_rate_perm_invariant 0 9 _ _ (by decide)

/-- C9: a single `record_test` call increments the total by exactly one,
changes each of the four buckets by zero or one with at most one bucket
changing, and over any further sequence of calls all five counters (which
are natural numbers, hence non-negative) are non-decreasing. -/
theorem record_test_counters_monotone (s : SlashyShortcutTester)
    (shortcut description status notes : String) (now : Nat)
    (cs : List RecordCall) :
    (record_test s shortcut description status notes now).total_tests
      = s.total_tests + 1 ∧
    ((record_test s shortcut description status notes now).passed_tests
        = s.passed_tests ∨
      (record_test s shortcut description status notes now).passed_tests
        = s.passed_tests + 1) ∧
    ((record_test s shortcut description status notes now).failed_tests
        = s.failed_tests ∨
      (record_test s shortcut description status notes now).failed_tests
        = s.failed_tests + 1) ∧
    ((record_test s shortcut description status notes now).partial_tests
        = s.partial_tests ∨
      (record_test s shortcut description status notes now).partial_tests
        = s.partial_tests + 1) ∧
    ((record_test s shortcut description status notes now).error_tests
        = s.error_tests ∨
      (record_test s shortcut description status notes now).error_tests
        = s.error_tests + 1) ∧
    (record_test s shortcut description status notes now).passed_tests
        + (record_test s shortcut description status notes now).failed_tests
        + (record_test s shortcut description status notes now).partial_tests
        + (record_test s shortcut description status notes now).error_tests
      ≤ s.passed_tests + s.failed_tests + s.partial_tests + s.error_tests + 1 ∧
    s.total_tests ≤ (runRecords s cs).total_tests ∧
    s.passed_tests ≤ (runRecords s cs).passed_tests ∧
    s.failed_tests ≤ (runRecords s cs).failed_tests ∧
    s.partial_tests ≤ (runRecords s cs).partial_tests ∧
    s.error_tests ≤ (runRecords s cs).error_tests := by
  refine ⟨record_test_total .., ?_, ?_, ?_, ?_, ?_, ?_, ?_, ?_, ?_, ?_⟩
  · rw [record_test_passed]
    split_ifs <;> simp
  · rw [record_test_failed]
    split_ifs <;> simp
  · rw [record_test_partial_bucket]
    split_ifs <;> simp
  · rw [record_test_error]
    split_ifs <;> simp
  · rw [record_test_passed, record_test_failed, record_test_partial_bucket,
      record_test_error]
    split_ifs <;> simp_all <;> omega
  · rw [runRecords_total]
    omega
  · rw [runRecords_passed]
    omega
  · rw [runRecords_failed]
    omega
  · rw [runRecords_partial_bucket]
    omega
  · rw [runRecords_error]
    omega

/-- C8: whenever 21 outcomes are recorded of which exactly 17 have status
PASS, the pass rate is exactly 1700/21 (about 80.95; its rounding to two
decimal places, as `save_json_report` stores it, is 80.95), and since
1700/21 is at least 80 the qualitative status is PRODUCTION READY. -/
theorem pass_rate_seventeen_of_twentyone (start : Nat) (cs : List RecordCall)
    (hlen : cs.length = 21)
    (hpass : (cs.map RecordCall.status).count "PASS" = 17) :
    get_pass_rate (runRecords (SlashyShortcutTester.init start) cs) = 1700 / 21 ∧
    round2 (get_pass_rate (runRecords (SlashyShortcutTester.init start) cs))
      = 8095 / 100 ∧
    overall_status (get_pass_rate (runRecords (SlashyShortcutTester.init start) cs))
      = "✓ PRODUCTION READY" := by
  have h1 : get_pass_rate (runRecords (SlashyShortcutTester.init start) cs)
      = 1700 / 21 := by
    simp only [get_pass_rate, runRecords_total, runRecords_passed,
      SlashyShortcutTester.init, Nat.zero_add, hlen, hpass]
    norm_num
  refine ⟨h1, ?_, ?_⟩
  · rw [h1]
    rw [round2, round_eq]
    norm_num
  · rw [h1]
    have h80 : (80 : ℚ) ≤ 1700 / 21 := by norm_num
    simp [overall_status, h80]

/-- The 21 calls of the witness for C8: 17 PASS, two FAIL, one PARTIAL and
one ERROR. -/
def seventeenOfTwentyone : List RecordCall :=
  List.replicate 17
      { shortcut := "c", description := "Compose mail", status := "PASS",
        notes := "", now := 1 }
    ++ List.replicate 2
      { shortcut := "/", description := "Search", status := "FAIL",
        notes := "", now := 2 }
    ++ [{ shortcut := "u", description := "Toggle read/unread",
          status := "PARTIAL", notes := "", now := 3 },
        { shortcut := "p+a", description := "AI agent chat", status := "ERROR",
          notes := "", now := 4 }]

/-- Witness for C8 at a concrete run of 21 records with 17 PASS. -/
theorem pass_rate_seventeen_of_twentyone_witness :
    get_pass_rate (runRecords (SlashyShortcutTester.init 0) seventeenOfTwentyone)
      = 1700 / 21 ∧
    round2 (get_pass_rate (runRecords (SlashyShortcutTester.init 0)
        seventeenOfTwentyone)) = 8095 / 100 ∧
    overall_status (get_pass_rate (runRecords (SlashyShortcutTester.init 0)
        seventeenOfTwentyone)) = "✓ PRODUCTION READY" :=
  pass_rate_seventeen_of_twentyone 0 seventeenOfTwentyone (by decide) (by decide)

/-- Heap of Python list objects for the aliasing claim about
`save_json_report`: a list value lives at an address (its index in the
store) and Python variables hold addresses, so two holders of the same
address see each other's mutations. -/
structure Heap where
  lists : List (List TestOutcome)
deriving DecidableEq

/-- Dereference a list address (out-of-range addresses, never reached from
a valid recorder, read as the empty list). -/
def Heap.read (h : Heap) (addr : Nat) : List TestOutcome :=
  h.lists.getD addr []

/-- Mutate the list object at an address in place. -/
def Heap.write (h : Heap) (addr : Nat) (l : List TestOutcome) : Heap :=
  ⟨h.lists.set addr l⟩

/-- Allocate a fresh list object, returning the new heap and its address. -/
def Heap.alloc (h : Heap) (l : List TestOutcome) : Heap × Nat :=
  (⟨h.lists ++ [l]⟩, h.lists.length)

/-- The recorder of src/slashy_test.py with reference semantics for
`self.test_results`: the object holds the address of its result list, and
the counters by value as before. -/
structure TesterRef where
  results_addr : Nat
  total_tests : Nat
  passed_tests : Nat
  failed_tests : Nat
  partial_tests : Nat
  error_tests : Nat
  start_time : Nat
deriving DecidableEq

/-- `__init__` under reference semantics: allocate a fresh empty result
list on the heap. -/
def initRef (h : Heap) (start : Nat) : Heap × TesterRef :=
  let p := h.alloc []
  (p.1, { results_addr := p.2, total_tests := 0, passed_tests := 0,
          failed_tests := 0, partial_tests := 0, error_tests := 0,
          start_time := start })

/-- `record_test` under reference semantics: `self.test_results.append(...)`
mutates the list object on the heap through the recorder's address; the
counter updates are as in `record_test` above. -/
def record_test_ref (h : Heap) (s : TesterRef)
    (shortcut description status notes : String) (now : Nat) :
    Heap × TesterRef :=
  let h1 := h.write s.results_addr (h.read s.results_addr ++
    [({ shortcut := shortcut, description := description, status := status,
        timestamp := now, notes := notes } : TestOutcome)])
  let s2 :=
    if status = "PASS" then { s with passed_tests := s.passed_tests + 1 }
    else if status = "FAIL" then { s with failed_tests := s.failed_tests + 1 }
    else if status = "PARTIAL" then { s with partial_tests := s.partial_tests + 1 }
    else if status = "ERROR" then { s with error_tests := s.error_tests + 1 }
    else s
  (h1, { s2 with total_tests := s2.total_tests + 1 })

/-- The pass rate of the reference-semantics recorder (`get_pass_rate`
reads only counters, which are plain values). -/
def get_pass_rate_ref (s : TesterRef) : ℚ :=
  if s.total_tests = 0 then 0
  else ((s.passed_tests : ℚ) / (s.total_tests : ℚ)) * 100

/-- The report dictionary built by `save_json_report` (src/slashy_test.py
lines 175-193): the metadata literals, the summary numbers (the JSON key
written "partial" is `partial_count` here, that word being a Lean keyword),
and under the key `test_results` the value `self.test_results` — which in
Python is the address of the recorder's list object itself, not a copy of
the list. -/
structure Report where
  application : String
  platform : String
  browser : String
  url : String
  start_time : Nat
  end_time : Nat
  total_tests : Nat
  passed : Nat
  partial_count : Nat
  failed : Nat
  errors : Nat
  pass_rate : ℚ
  results_addr : Nat
deriving DecidableEq

/-- `save_json_report` under reference semantics, with `now` standing for
the `datetime.now()` read at build time: it builds the report dictionary
(whose `test_results` entry is the recorder's list address) and returns as
second component the outcome list that `json.dump` serializes to the file
at that moment, read through the shared reference. -/
def save_json_report (h : Heap) (s : TesterRef) (now : Nat) :
    Report × List TestOutcome :=
  ({ application := "Slashy Mail", platform := "Mac OS", browser := "Chrome",
     url := "https://slashy.com", start_time := s.start_time, end_time := now,
     total_tests := s.total_tests, passed := s.passed_tests,
     partial_count := s.partial_tests, failed := s.failed_tests,
     errors := s.error_tests, pass_rate := round2 (get_pass_rate_ref s),
     results_addr := s.results_addr },
   h.read s.results_addr)

lemma Heap.read_write_self (h : Heap) (a : Nat) (v : List TestOutcome)
    (hv : a < h.lists.length) : (h.write a v).read a = v := by
  simp [Heap.read, Heap.write, List.getD_eq_getElem?_getD,
    List.getElem?_set_self hv]

lemma record_test_ref_heap (h : Heap) (s : TesterRef)
    (a b st n : String) (t : Nat) :
    (record_test_ref h s a b st n t).1
      = h.write s.results_addr (h.read s.results_addr ++
          [({ shortcut := a, description := b, status := st,
              timestamp := t, notes := n } : TestOutcome)]) := rfl

/-- Counterexample to C5 as stated: build the report on a fresh recorder,
then record one further outcome; read through the report's stored
`test_results` reference, the already-built report's outcome list has
changed (from empty to one element), so the build did not take a copy. -/
theorem report_snapshot_counterexample :
    ¬ (Heap.read
        (record_test_ref (initRef { lists := [] } 0).1 (initRef { lists := [] } 0).2
          "c" "Compose mail" "PASS" "" 2).1
        ((save_json_report (initRef { lists := [] } 0).1 (initRef { lists := [] } 0).2
          1).1.results_addr)
      = Heap.read (initRef { lists := [] } 0).1
        ((save_json_report (initRef { lists := [] } 0).1 (initRef { lists := [] } 0).2
          1).1.results_addr)) := by
  decide

/-- C5 amended: at build time the report's `test_results` reference
dereferences to exactly the recorder's full ordered sequence, and the list
serialized into the JSON file at build time is that same sequence; but the
report stores the recorder's list by reference, not as a copy, so a further
`record_test` call makes the already-built report's `test_results` read as
the recorder's grown sequence — the original sequence with the new outcome
appended — rather than staying unchanged. -/
theorem report_snapshot_amended (h : Heap) (s : TesterRef) (now : Nat)
    (shortcut description status notes : String) (now2 : Nat)
    (hvalid : s.results_addr < h.lists.length) :
    (save_json_report h s now).1.results_addr = s.results_addr ∧
    Heap.read h (save_json_report h s now).1.results_addr
      = Heap.read h s.results_addr ∧
    (save_json_report h s now).2 = Heap.read h s.results_addr ∧
    Heap.read (record_test_ref h s shortcut description status notes now2).1
        (save_json_report h s now).1.results_addr
      = Heap.read h s.results_addr
        ++ [{ shortcut := shortcut, description := description,
              status := status, timestamp := now2, notes := notes }] := by
  refine ⟨rfl, rfl, rfl, ?_⟩
  rw [record_test_ref_heap]
  exact Heap.read_write_self h s.results_addr _ hvalid

/-- Witness for the amended C5 on a concrete fresh recorder. -/
theorem report_snapshot_amended_witness :
    (save_json_report (initRef { lists := [] } 0).1 (initRef { lists := [] } 0).2
        1).1.results_addr = (initRef { lists := [] } 0).2.results_addr ∧
    Heap.read (initRef { lists := [] } 0).1
        ((save_json_report (initRef { lists := [] } 0).1
          (initRef { lists := [] } 0).2 1).1.results_addr)
      = Heap.read (initRef { lists := [] } 0).1
          (initRef { lists := [] } 0).2.results_addr ∧
    (save_json_report (initRef { lists := [] } 0).1 (initRef { lists := [] } 0).2
        1).2
      = Heap.read (initRef { lists := [] } 0).1
          (initRef { lists := [] } 0).2.results_addr ∧
    Heap.read
        (record_test_ref (initRef { lists := [] } 0).1 (initRef { lists := [] } 0).2
          "c" "Compose mail" "PASS" "" 2).1
        ((save_json_report (initRef { lists := [] } 0).1
          (initRef { lists := [] } 0).2 1).1.results_addr)
      = Heap.read (initRef { lists := [] } 0).1
          (initRef { lists := [] } 0).2.results_addr
        ++ [{ shortcut := "c", description := "Compose mail", status := "PASS",
              timestamp := 2, notes := "" }] :=
  report_snapshot_amended (initRef { lists := [] } 0).1 (initRef { lists := [] } 0).2
    1 "c" "Compose mail" "PASS" "" 2 (by decide)

namespace ShortcutTests

/-- One recorded result of the second implementation
(src/slashy_shortcut_tests.py lines 25-32): same fields as the first plus
the leading `test_id`. -/
structure TestOutcome where
  test_id : String
  shortcut : String
  description : String
  status : String
  timestamp : Nat
  notes : String
deriving DecidableEq

/-- Recorder state of src/slashy_shortcut_tests.py `__init__` (lines 14-20):
same as src/slashy_test.py except that there is no error counter at all. -/
structure SlashyShortcutTester where
  test_results : List TestOutcome
  total_tests : Nat
  passed_tests : Nat
  failed_tests : Nat
  partial_tests : Nat
  start_time : Nat
deriving DecidableEq

/-- Fresh recorder of the second implementation. -/
def SlashyShortcutTester.init (start : Nat) : SlashyShortcutTester :=
  { test_results := []
    total_tests := 0
    passed_tests := 0
    failed_tests := 0
    partial_tests := 0
    start_time := start }

/-- `record_test` of src/slashy_shortcut_tests.py (lines 22-42): append the
outcome, then an `if/elif` chain with only the PASS, FAIL and PARTIAL arms
(no ERROR arm), then increment the total. -/
def record_test (s : SlashyShortcutTester)
    (test_id shortcut description status notes : String) (now : Nat) :
    SlashyShortcutTester :=
  let s1 := { s with
    test_results := s.test_results ++
      [({ test_id := test_id, shortcut := shortcut, description := description,
          status := status, timestamp := now, notes := notes } : TestOutcome)] }
  let s2 :=
    if status = "PASS" then { s1 with passed_tests := s1.passed_tests + 1 }
    else if status = "FAIL" then { s1 with failed_tests := s1.failed_tests + 1 }
    else if status = "PARTIAL" then { s1 with partial_tests := s1.partial_tests + 1 }
    else s1
  { s2 with total_tests := s2.total_tests + 1 }

/-- Run a sequence of calls on the second recorder; each call is a
`test_id` paired with the record arguments the two implementations share. -/
def runRecords (s : SlashyShortcutTester) :
    List (String × RecordCall) → SlashyShortcutTester
  | [] => s
  | p :: ps =>
      runRecords (record_test s p.1 p.2.shortcut p.2.description p.2.status
        p.2.notes p.2.now) ps

end ShortcutTests

section ShortcutTestsLemmas

variable (s : ShortcutTests.SlashyShortcutTester) (i a b st n : String) (t : Nat)

lemma record_test2_total :
    (ShortcutTests.record_test s i a b st n t).total_tests = s.total_tests + 1 := by
  simp only [ShortcutTests.record_test]
  split_ifs <;> rfl

lemma record_test2_passed :
    (ShortcutTests.record_test s i a b st n t).passed_tests
      = s.passed_tests + (if st = "PASS" then 1 else 0) := by
  simp only [ShortcutTests.record_test]
  split_ifs <;> rfl

lemma record_test2_failed :
    (ShortcutTests.record_test s i a b st n t).failed_tests
      = s.failed_tests + (if st = "FAIL" then 1 else 0) := by
  simp only [ShortcutTests.record_test]
  split_ifs <;> simp_all

lemma record_test2_partial_bucket :
    (ShortcutTests.record_test s i a b st n t).partial_tests
      = s.partial_tests + (if st = "PARTIAL" then 1 else 0) := by
  simp only [ShortcutTests.record_test]
  split_ifs <;> simp_all

end ShortcutTestsLemmas

lemma runRecords2_cons (s : ShortcutTests.SlashyShortcutTester)
    (p : String × RecordCall) (ps : List (String × RecordCall)) :
    ShortcutTests.runRecords s (p :: ps)
      = ShortcutTests.runRecords
          (ShortcutTests.record_test s p.1 p.2.shortcut p.2.description
            p.2.status p.2.notes p.2.now) ps := rfl

lemma runRecords2_total (s : ShortcutTests.SlashyShortcutTester)
    (ps : List (String × RecordCall)) :
    (ShortcutTests.runRecords s ps).total_tests = s.total_tests + ps.length := by
  induction ps generalizing s with
  | nil => rfl
  | cons p ps ih => simp [runRecords2_cons, ih, record_test2_total]; omega

lemma runRecords2_passed (s : ShortcutTests.SlashyShortcutTester)
    (ps : List (String × RecordCall)) :
    (ShortcutTests.runRecords s ps).passed_tests
      = s.passed_tests + (ps.map (fun p => p.2.status)).count "PASS" := by
  induction ps generalizing s with
  | nil => rfl
  | cons p ps ih =>
      simp [runRecords2_cons, ih, record_test2_passed, List.count_cons]
      rcases eq_or_ne p.2.status "PASS" with h | h <;> simp [h] <;> omega

lemma runRecords2_failed (s : ShortcutTests.SlashyShortcutTester)
    (ps : List (String × RecordCall)) :
    (ShortcutTests.runRecords s ps).failed_tests
      = s.failed_tests + (ps.map (fun p => p.2.status)).count "FAIL" := by
  induction ps generalizing s with
  | nil => rfl
  | cons p ps ih =>
      simp [runRecords2_cons, ih, record_test2_failed, List.count_cons]
      rcases eq_or_ne p.2.status "FAIL" with h | h <;> simp [h] <;> omega

lemma runRecords2_partial_bucket (s : ShortcutTests.SlashyShortcutTester)
    (ps : List (String × RecordCall)) :
    (ShortcutTests.runRecords s ps).partial_tests
      = s.partial_tests + (ps.map (fun p => p.2.status)).count "PARTIAL" := by
  induction ps generalizing s with
  | nil => rfl
  | cons p ps ih =>
      simp [runRecords2_cons, ih, record_test2_partial_bucket, List.count_cons]
      rcases eq_or_ne p.2.status "PARTIAL" with h | h <;> simp [h] <;> omega

/-- C10: on any common sequence of (shortcut, description, status, notes)
records the two implementations agree on total, passed, failed and partial
counts; the second implementation has no error bucket in its state at all,
and recording a status ERROR there increments only the total, leaving its
passed, failed and partial counters unchanged, whereas the first
implementation additionally increments its error counter. -/
theorem recorders_agree_error_divergence (start1 start2 : Nat)
    (ps : List (String × RecordCall))
    (s : SlashyShortcutTester) (t : ShortcutTests.SlashyShortcutTester)
    (test_id shortcut description notes : String) (now : Nat) :
    (runRecords (SlashyShortcutTester.init start1) (ps.map Prod.snd)).total_tests
      = (ShortcutTests.runRecords (ShortcutTests.SlashyShortcutTester.init start2)
          ps).total_tests ∧
    (runRecords (SlashyShortcutTester.init start1) (ps.map Prod.snd)).passed_tests
      = (ShortcutTests.runRecords (ShortcutTests.SlashyShortcutTester.init start2)
          ps).passed_tests ∧
    (runRecords (SlashyShortcutTester.init start1) (ps.map Prod.snd)).failed_tests
      = (ShortcutTests.runRecords (ShortcutTests.SlashyShortcutTester.init start2)
          ps).failed_tests ∧
    (runRecords (SlashyShortcutTester.init start1) (ps.map Prod.snd)).partial_tests
      = (ShortcutTests.runRecords (ShortcutTests.SlashyShortcutTester.init start2)
          ps).partial_tests ∧
    (ShortcutTests.record_test t test_id shortcut description "ERROR" notes
        now).total_tests = t.total_tests + 1 ∧
    (ShortcutTests.record_test t test_id shortcut description "ERROR" notes
        now).passed_tests = t.passed_tests ∧
    (ShortcutTests.record_test t test_id shortcut description "ERROR" notes
        now).failed_tests = t.failed_tests ∧
    (ShortcutTests.record_test t test_id shortcut description "ERROR" notes
        now).partial_tests = t.partial_tests ∧
    (record_test s shortcut description "ERROR" notes now).total_tests
      = s.total_tests + 1 ∧
    (record_test s shortcut description "ERROR" notes now).error_tests
      = s.error_tests + 1 := by
  have hmap : (ps.map Prod.snd).map RecordCall.status
      = ps.map (fun p => p.2.status) := by
    rw [List.map_map]
    rfl
  refine ⟨?_, ?_, ?_, ?_, record_test2_total .., ?_, ?_, ?_,
    record_test_total .., ?_⟩
  · rw [runRecords_total, runRecords2_total]
    simp [SlashyShortcutTester.init, ShortcutTests.SlashyShortcutTester.init]
  · rw [runRecords_passed, runRecords2_passed, hmap]
    simp [SlashyShortcutTester.init, ShortcutTests.SlashyShortcutTester.init]
  · rw [runRecords_failed, runRecords2_failed, hmap]
    simp [SlashyShortcutTester.init, ShortcutTests.SlashyShortcutTester.init]
  · rw [runRecords_partial_bucket, runRecords2_partial_bucket, hmap]
    simp [SlashyShortcutTester.init, ShortcutTests.SlashyShortcutTester.init]
  · rw [record_test2_passed]
    simp
  · rw [record_test2_failed]
    simp
  · rw [record_test2_partial_bucket]
    simp
  · rw [record_test_error]
    simp
